import Mathlib

/-!
Shallow embedding of the in-process credential and session authority found in
packages/gin/challenge-1-basic-routing/submissions/q1ngy/solution.go:
user registration and login, bcrypt password hashing, brute-force lockout,
signed access tokens paired with rotating opaque refresh tokens, token
revocation via a blacklist, and role changes.

Modelling conventions:
- Wall-clock time is an explicit Nat parameter measured in seconds
  (Go passes time.Now() implicitly; durations keep their Go values in seconds).
- The bcrypt library is modelled symbolically: a hash records the password and
  the cost factor, and comparison succeeds exactly on the hashed password.
- JWT signing is modelled symbolically: the string space is an inductive type
  whose first constructor is a well-formed signed token (claims plus signing
  key) and whose second constructor is any other string.
- Randomness (the 32-byte refresh token from crypto/rand) is an explicit
  String parameter supplied by the environment.
- Go map operations on the blacklist and the refresh-token map are modelled by
  association lists with map semantics (lookup finds the unique live entry).
- Fallible handlers return Except (status, message) paired with the post state;
  mutation through Go pointers into the users slice is modelled by updating
  the first matching record in the list.
-/

namespace GoAuth

/-- Symbolic model of a bcrypt hash produced by bcrypt.GenerateFromPassword:
it records the hashed password and the cost factor (the salt is irrelevant to
the claims and is omitted). -/
structure BcryptHash where
  pw : String
  cost : Nat
deriving DecidableEq, Repr

/-- Model of bcrypt.GenerateFromPassword (total: the Go error case is
resource exhaustion only). -/
def bcryptGenerate (password : String) (cost : Nat) : BcryptHash :=
  { pw := password, cost := cost }

/-- Model of bcrypt.CompareHashAndPassword: succeeds iff the password is the
one that was hashed. -/
def bcryptCompare (hash : BcryptHash) (password : String) : Bool :=
  hash.pw == password

/-- Go constant bcrypt.DefaultCost. -/
def bcryptDefaultCost : Nat := 10

/-- JWT claims embedded in an access token (JWTClaims in the source:
user id, username, role, plus the registered issued-at/expires-at claims). -/
structure JWTClaims where
  userID : Nat
  username : String
  role : String
  issuedAt : Nat
  expiresAt : Nat
deriving DecidableEq, Repr

/-- Symbolic model of the Go string space as seen by the token machinery:
a string is either a well-formed JWT signed with some key, or any other
plain string. -/
inductive Str where
  | jwt (claims : JWTClaims) (key : String)
  | plain (s : String)
deriving DecidableEq, Repr

/-- TokenResponse from the source. -/
structure TokenResponse where
  accessToken : Str
  refreshToken : String
  tokenType : String
  expiresIn : Nat
  expiresAt : Nat
deriving DecidableEq, Repr

/-- User record from the source. -/
structure User where
  id : Nat
  username : String
  email : String
  passwordHash : BcryptHash
  firstName : String
  lastName : String
  role : String
  isActive : Bool
  emailVerified : Bool
  lastLogin : Option Nat
  failedAttempts : Nat
  lockedUntil : Option Nat
  createdAt : Nat
  updatedAt : Nat
deriving DecidableEq, Repr

/-- LoginRequest from the source. -/
structure LoginRequest where
  username : String
  password : String
deriving DecidableEq, Repr

/-- RegisterRequest from the source. -/
structure RegisterRequest where
  username : String
  email : String
  password : String
  confirmPassword : String
  firstName : String
  lastName : String
deriving DecidableEq, Repr

/-- The Authorization header of a request: a flag recording whether the raw
header string starts with the literal Bearer prefix, and the remainder of the
string. The raw header is empty iff the flag is unset and the remainder is
the empty plain string. -/
structure AuthHeader where
  bearerTag : Bool
  token : Str
deriving DecidableEq, Repr

/-- The global mutable stores of the source: the users slice, the
blacklistedTokens map, the refreshTokens map and the nextUserID counter. -/
structure ServerState where
  users : List User
  blacklistedTokens : List Str
  refreshTokens : List (String × Nat)
  nextUserID : Nat
deriving DecidableEq, Repr

/-- Configuration constants from the source, in seconds. -/
def accessTokenTTL : Nat := 15 * 60

/-- refreshTokenTTL = 7 * 24 * time.Hour, in seconds. Declared in the source
configuration block but never read anywhere in the program. -/
def refreshTokenTTL : Nat := 7 * 24 * 60 * 60

def maxFailedAttempts : Nat := 5

/-- lockoutDuration = 30 * time.Minute, in seconds. -/
def lockoutDuration : Nat := 30 * 60

def jwtSecret : String := "your-super-secret-jwt-key"

def RoleUser : String := "user"

def RoleAdmin : String := "admin"

def RoleModerator : String := "moderator"

/-- Go rune classification from isStrongPassword: uppercase ASCII letter
(code points 65 to 90, the range from A to Z). -/
def isUpperGo (c : Char) : Bool :=
  decide (65 ≤ c.toNat ∧ c.toNat ≤ 90)

/-- Lowercase ASCII letter (code points 97 to 122, the range from a to z). -/
def isLowerGo (c : Char) : Bool :=
  decide (97 ≤ c.toNat ∧ c.toNat ≤ 122)

/-- ASCII digit (code points 48 to 57). -/
def isDigitGo (c : Char) : Bool :=
  decide (48 ≤ c.toNat ∧ c.toNat ≤ 57)

/-- The default branch of the switch in isStrongPassword: a rune that is not
an ASCII uppercase letter, lowercase letter or digit, i.e. non-alphanumeric. -/
def isSpecialGo (c : Char) : Bool :=
  !isUpperGo c && !isLowerGo c && !isDigitGo c

/-- Number of bytes of the UTF-8 encoding of a rune, mirroring what the Go
built-in len counts for a string. -/
def charUtf8Bytes (c : Char) : Nat :=
  if c.toNat < 128 then 1
  else if c.toNat < 2048 then 2
  else if c.toNat < 65536 then 3
  else 4

/-- Go len(s) for a string: the number of bytes of its UTF-8 encoding. On
ASCII strings this coincides with the number of characters. -/
def goStrLen (s : String) : Nat :=
  s.data.foldl (fun n c => n + charUtf8Bytes c) 0

/-- The four has-flags accumulated by the character loop of
isStrongPassword. -/
structure PwFlags where
  hasUpper : Bool
  hasLower : Bool
  hasDigit : Bool
  hasSpecial : Bool
deriving DecidableEq, Repr

/-- One iteration of the switch inside isStrongPassword (the cases are tried
in source order; the default case sets hasSpecial). -/
def pwStep (f : PwFlags) (c : Char) : PwFlags :=
  if isUpperGo c then { f with hasUpper := true }
  else if isLowerGo c then { f with hasLower := true }
  else if isDigitGo c then { f with hasDigit := true }
  else { f with hasSpecial := true }

/-- isStrongPassword from the source: length at least 8 bytes, then a loop
over the runes setting the four class flags, returning their conjunction. -/
def isStrongPassword (password : String) : Bool :=
  if goStrLen password < 8 then false
  else
    let f := password.data.foldl pwStep ⟨false, false, false, false⟩
    f.hasUpper && f.hasLower && f.hasDigit && f.hasSpecial

/-- hashPassword from the source: bcrypt with cost 12. -/
def hashPassword (password : String) : BcryptHash :=
  bcryptGenerate password 12

/-- verifyPassword from the source. -/
def verifyPassword (password : String) (hash : BcryptHash) : Bool :=
  bcryptCompare hash password

/-- Lookup in the refreshTokens map (Go map indexing). -/
def lookupRT (m : List (String × Nat)) (key : String) : Option Nat :=
  (m.find? (fun p => p.1 == key)).map (fun p => p.2)

/-- Go delete(m, key). -/
def deleteRT (m : List (String × Nat)) (key : String) : List (String × Nat) :=
  m.filter (fun p => !(p.1 == key))

/-- Go map assignment m[key] = v. -/
def insertRT (m : List (String × Nat)) (key : String) (v : Nat) : List (String × Nat) :=
  (key, v) :: deleteRT m key

/-- Membership test in the blacklistedTokens map (Go map indexing of a
map with bool values). -/
def containsStr (bl : List Str) (s : Str) : Bool :=
  bl.any (fun x => decide (x = s))

/-- Go map assignment blacklistedTokens[s] = true. -/
def insertStr (bl : List Str) (s : Str) : List Str :=
  if containsStr bl s then bl else s :: bl

/-- findUserByUsername from the source (the empty username is rejected before
the scan). -/
def findUserByUsername (users : List User) (username : String) : Option User :=
  if username = "" then none
  else users.find? (fun u => u.username == username)

/-- findUserByEmail from the source. -/
def findUserByEmail (users : List User) (email : String) : Option User :=
  if email = "" then none
  else users.find? (fun u => u.email == email)

/-- findUserByID from the source. -/
def findUserByID (users : List User) (id : Nat) : Option User :=
  users.find? (fun u => u.id == id)

/-- Mutation through a Go pointer returned by one of the find helpers:
update the first record satisfying the predicate. -/
def updateFirstWhere (p : User → Bool) (f : User → User) : List User → List User
  | [] => []
  | u :: us => if p u then f u :: us else u :: updateFirstWhere p f us

/-- isAccountLocked from the source: locked iff LockedUntil is set and is
after now. -/
def isAccountLocked (user : User) (now : Nat) : Bool :=
  match user.lockedUntil with
  | none => false
  | some t => decide (now < t)

/-- recordFailedAttempt from the source: increment the counter; on reaching
maxFailedAttempts set LockedUntil to now plus lockoutDuration and reset the
counter to zero. -/
def recordFailedAttempt (user : User) (now : Nat) : User :=
  let u := { user with failedAttempts := user.failedAttempts + 1 }
  if maxFailedAttempts ≤ u.failedAttempts then
    { u with lockedUntil := some (now + lockoutDuration), failedAttempts := 0 }
  else u

/-- resetFailedAttempts from the source. -/
def resetFailedAttempts (user : User) : User :=
  { user with failedAttempts := 0, lockedUntil := none }

/-- generateTokens from the source: build the access claims expiring at
now plus accessTokenTTL, sign them with jwtSecret, record the fresh refresh
token in the refreshTokens map, and return the TokenResponse. The fresh
random token from generateRandomToken is the explicit argument. -/
def generateTokens (st : ServerState) (userID : Nat) (username : String)
    (role : String) (now : Nat) (fresh : String) : TokenResponse × ServerState :=
  let claims : JWTClaims :=
    { userID := userID, username := username, role := role,
      issuedAt := now, expiresAt := now + accessTokenTTL }
  let resp : TokenResponse :=
    { accessToken := Str.jwt claims jwtSecret, refreshToken := fresh,
      tokenType := "Bearer", expiresIn := accessTokenTTL,
      expiresAt := now + accessTokenTTL }
  (resp, { st with refreshTokens := insertRT st.refreshTokens fresh userID })

/-- The error outcomes of validateToken: the explicit blacklist error, and
the errors surfaced by the jwt library (structure or signature failure, and
expiry). -/
inductive TokenErr where
  | blacklisted
  | malformed
  | expired
deriving DecidableEq, Repr

/-- validateToken from the source: the blacklist is consulted first; only
then is the token parsed and its signature and expiry checked by the jwt
library (modelled symbolically on Str). -/
def validateToken (blacklist : List Str) (tokenString : Str) (now : Nat) :
    Except TokenErr JWTClaims :=
  if containsStr blacklist tokenString then Except.error TokenErr.blacklisted
  else
    match tokenString with
    | Str.plain _ => Except.error TokenErr.malformed
    | Str.jwt claims key =>
      if key ≠ jwtSecret then Except.error TokenErr.malformed
      else if claims.expiresAt < now then Except.error TokenErr.expired
      else Except.ok claims

/-- Modelled approximation of the email rule of the gin binding validator:
only nonemptiness and the presence of a separator matter to the claims. -/
def validEmailGo (email : String) : Bool :=
  decide (email ≠ "") && email.data.any (fun c => c == '@')

/-- The binding tags on RegisterRequest, as enforced by ShouldBindJSON:
required plus min and max lengths, and the email rule. -/
def bindRegister (req : RegisterRequest) : Bool :=
  decide (3 ≤ req.username.length) && decide (req.username.length ≤ 30) &&
  validEmailGo req.email &&
  decide (8 ≤ req.password.length) &&
  decide (req.confirmPassword ≠ "") &&
  decide (2 ≤ req.firstName.length) && decide (req.firstName.length ≤ 50) &&
  decide (2 ≤ req.lastName.length) && decide (req.lastName.length ≤ 50)

/-- register from the source: binding, password confirmation, strength, the
uniqueness check against both indices, then bcrypt with bcrypt.DefaultCost
and insertion of the new record. -/
def register (st : ServerState) (req : RegisterRequest) (now : Nat) :
    Except (Nat × String) User × ServerState :=
  if !bindRegister req then
    (Except.error (400, "Invalid input data"), st)
  else if req.password ≠ req.confirmPassword then
    (Except.error (400, "Passwords do not match"), st)
  else if !isStrongPassword req.password then
    (Except.error (400, "Password does not meet strength requirements"), st)
  else if (findUserByUsername st.users req.username).isSome ||
      (findUserByEmail st.users req.email).isSome then
    (Except.error (409, "Username or email is already taken"), st)
  else
    let newUser : User :=
      { id := st.nextUserID, username := req.username, email := req.email,
        passwordHash := bcryptGenerate req.password bcryptDefaultCost,
        firstName := req.firstName, lastName := req.lastName,
        role := "user", isActive := true, emailVerified := false,
        lastLogin := none, failedAttempts := 0, lockedUntil := none,
        createdAt := now, updatedAt := now }
    (Except.ok newUser,
      { st with users := st.users ++ [newUser], nextUserID := st.nextUserID + 1 })

/-- login from the source: binding, lookup, lockout check, password check
with failed-attempt recording, then reset, last-login update and token
issuance. -/
def login (st : ServerState) (req : LoginRequest) (now : Nat) (fresh : String) :
    Except (Nat × String) TokenResponse × ServerState :=
  if req.username = "" ∨ req.password.length < 8 then
    (Except.error (400, "Invalid credentials format"), st)
  else
    match findUserByUsername st.users req.username with
    | none => (Except.error (401, "Invalid credentials"), st)
    | some user =>
      if isAccountLocked user now then
        (Except.error (423, "Account is temporarily locked"), st)
      else if !(verifyPassword req.password user.passwordHash) then
        let users1 := updateFirstWhere (fun u => u.username == req.username)
          (fun u => recordFailedAttempt u now) st.users
        (Except.error (401, "Invalid credentials"), { st with users := users1 })
      else
        let users1 := updateFirstWhere (fun u => u.username == req.username)
          (fun u => { resetFailedAttempts u with lastLogin := some now }) st.users
        let st1 := { st with users := users1 }
        let pr := generateTokens st1 user.id user.username user.role now fresh
        (Except.ok pr.1, pr.2)

/-- logout from the source: reject only an empty Authorization header; strip
the Bearer prefix, blacklist the remaining raw string unconditionally, and
delete the refresh token from the body when one was supplied. -/
def logout (st : ServerState) (header : AuthHeader) (reqRefreshToken : String) :
    Except (Nat × String) String × ServerState :=
  if !header.bearerTag ∧ header.token = Str.plain ("") then
    (Except.error (401, "Authorization header required"), st)
  else
    let tokenString := header.token
    let st1 := { st with blacklistedTokens := insertStr st.blacklistedTokens tokenString }
    let st2 :=
      if reqRefreshToken ≠ "" then
        { st1 with refreshTokens := deleteRT st1.refreshTokens reqRefreshToken }
      else st1
    (Except.ok ("Logout successful"), st2)

/-- refreshToken from the source (the rotate operation): look the token up,
check the mapped user exists and is active, delete the old mapping and issue
a fresh pair. No timestamp is consulted anywhere. -/
def refreshToken (st : ServerState) (reqToken : String) (now : Nat) (fresh : String) :
    Except (Nat × String) TokenResponse × ServerState :=
  if reqToken = "" then
    (Except.error (400, "Refresh token required"), st)
  else
    match lookupRT st.refreshTokens reqToken with
    | none => (Except.error (401, "Invalid or expired refresh token"), st)
    | some userID =>
      match findUserByID st.users userID with
      | none => (Except.error (401, "User not found or is not active"), st)
      | some user =>
        if !user.isActive then
          (Except.error (401, "User not found or is not active"), st)
        else
          let st1 := { st with refreshTokens := deleteRT st.refreshTokens reqToken }
          let pr := generateTokens st1 user.id user.username user.role now fresh
          (Except.ok pr.1, pr.2)

/-- changePassword from the source: the record is fetched by the user id of
the validated claims, the current password is compared, and the new password
is hashed with bcrypt.DefaultCost. -/
def changePassword (st : ServerState) (claims : JWTClaims)
    (currentPassword newPassword : String) (now : Nat) :
    Except (Nat × String) String × ServerState :=
  match findUserByID st.users claims.userID with
  | none => (Except.error (401, "User not found"), st)
  | some user =>
    if currentPassword = "" ∨ newPassword.length < 8 then
      (Except.error (400, "Invalid input data"), st)
    else if !bcryptCompare user.passwordHash currentPassword then
      (Except.error (400, "Incorrect current password"), st)
    else
      let users1 := updateFirstWhere (fun u => u.id == claims.userID)
        (fun u => { u with
          passwordHash := bcryptGenerate newPassword bcryptDefaultCost,
          updatedAt := now }) st.users
      (Except.ok ("Password changed successfully"), { st with users := users1 })

/-- changeUserRole from the source: role must be one of the three valid
roles; the record is then updated in place. -/
def changeUserRole (st : ServerState) (id : Nat) (role : String) (now : Nat) :
    Except (Nat × String) User × ServerState :=
  if role = "" then (Except.error (400, "Invalid role data"), st)
  else if role ≠ RoleAdmin ∧ role ≠ RoleModerator ∧ role ≠ RoleUser then
    (Except.error (400, "Invalid role specified"), st)
  else
    match findUserByID st.users id with
    | none => (Except.error (404, "User not found"), st)
    | some user =>
      let users1 := updateFirstWhere (fun u => u.id == id)
        (fun u => { u with role := role, updatedAt := now }) st.users
      (Except.ok { user with role := role, updatedAt := now },
        { st with users := users1 })

/-- The state-changing operations of the core. updateUserProfile mutates only
the detached User struct placed in the request context by authMiddleware,
never the users slice, so it is a no-op on the shared state; the remaining
handlers are read-only. -/
inductive Op where
  | opRegister (req : RegisterRequest) (now : Nat)
  | opLogin (req : LoginRequest) (now : Nat) (fresh : String)
  | opLogout (header : AuthHeader) (reqRefreshToken : String)
  | opRefresh (reqToken : String) (now : Nat) (fresh : String)
  | opChangePassword (claims : JWTClaims) (currentPassword newPassword : String) (now : Nat)
  | opChangeUserRole (id : Nat) (role : String) (now : Nat)
  | opUpdateProfile

/-- Effect of one handler invocation on the shared state. -/
def stepState (st : ServerState) : Op → ServerState
  | Op.opRegister req now => (register st req now).2
  | Op.opLogin req now fresh => (login st req now fresh).2
  | Op.opLogout header rt => (logout st header rt).2
  | Op.opRefresh tok now fresh => (refreshToken st tok now fresh).2
  | Op.opChangePassword claims cur new now => (changePassword st claims cur new now).2
  | Op.opChangeUserRole id role now => (changeUserRole st id role now).2
  | Op.opUpdateProfile => st

/-- The admin user seeded by main (timestamps taken as 0). -/
def adminUser : User :=
  { id := 1, username := "admin", email := "admin@example.com",
    passwordHash := hashPassword ("admin123"), firstName := "Admin",
    lastName := "User", role := RoleAdmin, isActive := true,
    emailVerified := true, lastLogin := none, failedAttempts := 0,
    lockedUntil := none, createdAt := 0, updatedAt := 0 }

/-- The state after main seeds the admin user. -/
def initialState : ServerState :=
  { users := [adminUser], blacklistedTokens := [], refreshTokens := [],
    nextUserID := 2 }

/-- Multi-step execution of handler invocations starting from a given
state. -/
inductive ReachableFrom : ServerState → ServerState → Prop where
  | refl (st : ServerState) : ReachableFrom st st
  | step {st st' : ServerState} (h : ReachableFrom st st') (op : Op) :
      ReachableFrom st (stepState st' op)

/-- A state reachable through the operations from the seeded initial
state. -/
def Reachable (st : ServerState) : Prop :=
  ReachableFrom initialState st

/-- The in-place record update performed by the password-change path. -/
def changePasswordUpdate (new : String) (now : Nat) (u : User) : User :=
  { u with passwordHash := bcryptGenerate new bcryptDefaultCost, updatedAt := now }

/-- The TokenResponse minted by generateTokens for the given identity at the
given instant with the given fresh refresh token. -/
def mintedResponse (uid : Nat) (uname role : String) (now : Nat)
    (fresh : String) : TokenResponse :=
  { accessToken := Str.jwt
      { userID := uid, username := uname, role := role,
        issuedAt := now, expiresAt := now + accessTokenTTL } jwtSecret,
    refreshToken := fresh, tokenType := "Bearer",
    expiresIn := accessTokenTTL, expiresAt := now + accessTokenTTL }

/-- The refresh-token map effect of a successful rotation: the consumed key
is deleted and the fresh key is recorded for the user. -/
def rotatedState (st : ServerState) (t fresh : String) (uid : Nat) : ServerState :=
  { st with refreshTokens := insertRT (deleteRT st.refreshTokens t) fresh uid }

/-- A user record right after the fifth consecutive failed attempt at time
t5: counter reset to zero and the account locked for lockoutDuration. -/
def lockedUser (u : User) (t5 : Nat) : User :=
  { u with failedAttempts := 0, lockedUntil := some (t5 + lockoutDuration) }

/-- A user record right after a successful login at time t7. -/
def freshLoginUser (u : User) (t7 : Nat) : User :=
  { u with failedAttempts := 0, lockedUntil := none, lastLogin := some t7 }

/-- Concrete register request used by the concrete instantiations below. -/
def cRegReq : RegisterRequest :=
  { username := "alice", email := "alice@x.com", password := "Passw0rd!",
    confirmPassword := "Passw0rd!", firstName := "Alice", lastName := "Smith" }

/-- The record that register creates for cRegReq from the seeded initial
state (bcrypt.DefaultCost, not cost 12, on the registration path). -/
def cRegUser : User :=
  { id := 2, username := "alice", email := "alice@x.com",
    passwordHash := bcryptGenerate ("Passw0rd!") bcryptDefaultCost,
    firstName := "Alice", lastName := "Smith", role := "user", isActive := true,
    emailVerified := false, lastLogin := none, failedAttempts := 0,
    lockedUntil := none, createdAt := 0, updatedAt := 0 }

/-- The state after that registration. -/
def cRegState : ServerState :=
  { users := initialState.users ++ [cRegUser], blacklistedTokens := [],
    refreshTokens := [], nextUserID := 3 }

/-- The state after five consecutive wrong-password logins for alice from
the registered state, at times 1 through 5. -/
def cLock5 : ServerState :=
  (login (login (login (login (login cRegState ⟨"alice", "WrongPass1!"⟩ 1 ("x")).2
    ⟨"alice", "WrongPass1!"⟩ 2 ("x")).2 ⟨"alice", "WrongPass1!"⟩ 3 ("x")).2
    ⟨"alice", "WrongPass1!"⟩ 4 ("x")).2 ⟨"alice", "WrongPass1!"⟩ 5 ("x")).2

/-- A state whose refresh-token map holds one opaque token mapped to the
seeded admin user; conceptually the token was issued at time 0. -/
def cStRT : ServerState :=
  { initialState with refreshTokens := [("rtOld", 1)] }

/-- The state reached from the seeded initial state by one successful admin
login that records the refresh token rta. -/
def cStLogin : ServerState :=
  stepState initialState (Op.opLogin ⟨"admin", "admin123"⟩ 0 ("rta"))

/-- Usernames and emails are pairwise distinct across the user records. -/
def UsersDistinct (users : List User) : Prop :=
  users.Pairwise (fun a b => a.username ≠ b.username ∧ a.email ≠ b.email)

/-- Invariant maintained by every handler: distinct usernames and emails,
every stored record is active, and every refresh-token entry names a stored
user. -/
def GoodState (st : ServerState) : Prop :=
  UsersDistinct st.users ∧
  (∀ u ∈ st.users, u.isActive = true) ∧
  (∀ q ∈ st.refreshTokens, (findUserByID st.users q.2).isSome = true)

/-- Abbreviation for the state left behind by a failed login for a present
user: the matching record gets a recorded failed attempt. -/
def loginFailUpdate (st : ServerState) (uname : String) (now : Nat) : ServerState :=
  let users1 := updateFirstWhere (fun v => v.username == uname)
    (fun v => recordFailedAttempt v now) st.users
  { st with users := users1 }

/-- Abbreviation for the users-list effect of a successful login: the
matching record gets its counter reset, its lock cleared and its last-login
stamped. -/
def loginSuccessUpdate (st : ServerState) (uname : String) (now : Nat) : ServerState :=
  let users1 := updateFirstWhere (fun v => v.username == uname)
    (fun v => { resetFailedAttempts v with lastLogin := some now }) st.users
  { st with users := users1 }

/-! ### Lemmas on the refresh-token map -/

theorem lookupRT_deleteRT_self (m : List (String × Nat)) (k : String) :
    lookupRT (deleteRT m k) k = none := by
  have h : (deleteRT m k).find? (fun p => p.1 == k) = none := by
    rw [List.find?_eq_none]
    intro x hx
    simpa using (List.mem_filter.mp hx).2
  simp [lookupRT, h]

theorem lookupRT_cons_ne {k t : String} (v : Nat) (m : List (String × Nat))
    (h : k ≠ t) : lookupRT ((k, v) :: m) t = lookupRT m t := by
  have hb : (k == t) = false := beq_eq_false_iff_ne.mpr h
  simp [lookupRT, List.find?, hb]

theorem lookupRT_deleteRT_of_none {m : List (String × Nat)} {t : String}
    (k : String) (h : lookupRT m t = none) : lookupRT (deleteRT m k) t = none := by
  simp only [lookupRT, Option.map_eq_none'] at h ⊢
  rw [List.find?_eq_none] at h ⊢
  intro x hx
  exact h x (List.mem_filter.mp hx).1

theorem lookupRT_rotate {m : List (String × Nat)} {t fresh : String} (v : Nat)
    (h : fresh ≠ t) : lookupRT (insertRT (deleteRT m t) fresh v) t = none := by
  rw [insertRT, lookupRT_cons_ne v _ h]
  exact lookupRT_deleteRT_of_none fresh (lookupRT_deleteRT_self m t)

theorem mem_deleteRT {m : List (String × Nat)} {k : String} {p : String × Nat}
    (h : p ∈ deleteRT m k) : p ∈ m :=
  (List.mem_filter.mp h).1

/-! ### Lemmas on the blacklist -/

theorem containsStr_iff {bl : List Str} {s : Str} :
    containsStr bl s = true ↔ s ∈ bl := by
  simp [containsStr, List.any_eq_true]

theorem mem_insertStr_self (bl : List Str) (s : Str) : s ∈ insertStr bl s := by
  unfold insertStr
  split
  · exact containsStr_iff.mp (by assumption)
  · exact List.mem_cons_self _ _

theorem mem_insertStr_of_mem {bl : List Str} {x : Str} (s : Str) (h : x ∈ bl) :
    x ∈ insertStr bl s := by
  unfold insertStr
  split
  · exact h
  · exact List.mem_cons_of_mem _ h

theorem register_blacklist (st : ServerState) (req : RegisterRequest) (now : Nat) :
    (register st req now).2.blacklistedTokens = st.blacklistedTokens := by
  unfold register
  (repeat' split) <;> rfl

theorem login_blacklist (st : ServerState) (req : LoginRequest) (now : Nat)
    (fresh : String) :
    (login st req now fresh).2.blacklistedTokens = st.blacklistedTokens := by
  unfold login
  (repeat' split) <;> rfl

theorem refreshToken_blacklist (st : ServerState) (tok : String) (now : Nat)
    (fresh : String) :
    (refreshToken st tok now fresh).2.blacklistedTokens = st.blacklistedTokens := by
  unfold refreshToken
  (repeat' split) <;> rfl

theorem changePassword_blacklist (st : ServerState) (claims : JWTClaims)
    (cur new : String) (now : Nat) :
    (changePassword st claims cur new now).2.blacklistedTokens = st.blacklistedTokens := by
  unfold changePassword
  (repeat' split) <;> rfl

theorem changeUserRole_blacklist (st : ServerState) (id : Nat) (role : String)
    (now : Nat) :
    (changeUserRole st id role now).2.blacklistedTokens = st.blacklistedTokens := by
  unfold changeUserRole
  (repeat' split) <;> rfl

theorem logout_blacklist_mono (st : ServerState) (h : AuthHeader) (rt : String)
    {t : Str} (ht : t ∈ st.blacklistedTokens) :
    t ∈ (logout st h rt).2.blacklistedTokens := by
  unfold logout
  split
  · exact ht
  · dsimp only
    split <;> exact mem_insertStr_of_mem _ ht

theorem blacklist_mono_step {st : ServerState} (op : Op) {t : Str}
    (ht : t ∈ st.blacklistedTokens) : t ∈ (stepState st op).blacklistedTokens := by
  cases op with
  | opRegister req now => rw [stepState, register_blacklist]; exact ht
  | opLogin req now fresh => rw [stepState, login_blacklist]; exact ht
  | opLogout header rt => exact logout_blacklist_mono st header rt ht
  | opRefresh tok now fresh => rw [stepState, refreshToken_blacklist]; exact ht
  | opChangePassword claims cur new now =>
    rw [stepState, changePassword_blacklist]; exact ht
  | opChangeUserRole id role now =>
    rw [stepState, changeUserRole_blacklist]; exact ht
  | opUpdateProfile => exact ht

theorem blacklist_mono {st st' : ServerState} (h : ReachableFrom st st') {t : Str}
    (ht : t ∈ st.blacklistedTokens) : t ∈ st'.blacklistedTokens := by
  induction h with
  | refl => exact ht
  | step _ op ih => exact blacklist_mono_step op ih

/-! ### Lemmas on the users list -/

theorem updateFirstWhere_map_eq {α : Type} (g : User → α) (p : User → Bool)
    (f : User → User) (hg : ∀ v, g (f v) = g v) :
    ∀ l : List User, (updateFirstWhere p f l).map g = l.map g := by
  intro l
  induction l with
  | nil => rfl
  | cons w ws ih =>
    unfold updateFirstWhere
    split
    · simp [hg]
    · simp [ih]

theorem mem_updateFirstWhere {p : User → Bool} {f : User → User} {x : User} :
    ∀ {l : List User}, x ∈ updateFirstWhere p f l → x ∈ l ∨ ∃ y, y ∈ l ∧ x = f y := by
  intro l
  induction l with
  | nil => intro h; exact absurd h (List.not_mem_nil x)
  | cons w ws ih =>
    intro h
    rw [updateFirstWhere] at h
    split at h
    · rcases List.mem_cons.mp h with h | h
      · exact Or.inr ⟨w, List.mem_cons_self _ _, h⟩
      · exact Or.inl (List.mem_cons_of_mem _ h)
    · rcases List.mem_cons.mp h with h | h
      · exact Or.inl (h ▸ List.mem_cons_self _ _)
      · rcases ih h with h | ⟨y, hy, hxy⟩
        · exact Or.inl (List.mem_cons_of_mem _ h)
        · exact Or.inr ⟨y, List.mem_cons_of_mem _ hy, hxy⟩

theorem find?_isSome_updateFirstWhere (q p : User → Bool) (f : User → User)
    (hq : ∀ v, q (f v) = q v) :
    ∀ l : List User,
      ((updateFirstWhere p f l).find? q).isSome = (l.find? q).isSome := by
  intro l
  induction l with
  | nil => rfl
  | cons w ws ih =>
    rw [updateFirstWhere]
    split
    · cases hqw : q w with
      | true =>
        rw [List.find?_cons_of_pos _ (show q (f w) = true by rw [hq]; exact hqw),
          List.find?_cons_of_pos _ hqw]
        rfl
      | false =>
        rw [List.find?_cons_of_neg _ (show ¬q (f w) = true by rw [hq]; simp [hqw]),
          List.find?_cons_of_neg _ (by simp [hqw])]
    · cases hqw : q w with
      | true =>
        rw [List.find?_cons_of_pos _ hqw, List.find?_cons_of_pos _ hqw]
      | false =>
        rw [List.find?_cons_of_neg _ (by simp [hqw]), List.find?_cons_of_neg _ (by simp [hqw])]
        exact ih

theorem find?_updateFirstWhere_self (q : User → Bool) (f : User → User)
    (hq : ∀ v, q (f v) = q v) {u : User} :
    ∀ {l : List User}, l.find? q = some u →
      (updateFirstWhere q f l).find? q = some (f u) := by
  intro l
  induction l with
  | nil => intro h; exact absurd h (by simp)
  | cons w ws ih =>
    intro h
    by_cases hw : q w = true
    · rw [List.find?_cons_of_pos _ hw] at h
      have hu : w = u := by injection h
      rw [updateFirstWhere, if_pos hw,
        List.find?_cons_of_pos _ (show q (f w) = true by rw [hq]; exact hw), hu]
    · rw [List.find?_cons_of_neg _ hw] at h
      rw [updateFirstWhere, if_neg hw, List.find?_cons_of_neg _ hw]
      exact ih h

theorem findUserByUsername_update (n : String) (f : User → User)
    (hf : ∀ v, (f v).username = v.username) (hn : n ≠ "") {l : List User} {u : User}
    (h : findUserByUsername l n = some u) :
    findUserByUsername (updateFirstWhere (fun v => v.username == n) f l) n = some (f u) := by
  unfold findUserByUsername at h ⊢
  rw [if_neg hn] at h ⊢
  exact find?_updateFirstWhere_self _ f (fun v => by rw [hf]) h

theorem findUserByID_update_isSome (p : User → Bool) (f : User → User)
    (hf : ∀ v, (f v).id = v.id) (uid : Nat) (l : List User) :
    (findUserByID (updateFirstWhere p f l) uid).isSome = (findUserByID l uid).isSome := by
  unfold findUserByID
  exact find?_isSome_updateFirstWhere _ p f (fun v => by rw [hf]) l

theorem findUserByID_append (l1 l2 : List User) (uid : Nat) {u : User}
    (h : findUserByID l1 uid = some u) : findUserByID (l1 ++ l2) uid = some u := by
  unfold findUserByID at h ⊢
  rw [List.find?_append, h]
  rfl

theorem mem_of_findUserByUsername {l : List User} {n : String} {u : User}
    (h : findUserByUsername l n = some u) : u ∈ l := by
  unfold findUserByUsername at h
  split at h
  · exact absurd h (by simp)
  · exact List.mem_of_find?_eq_some h

theorem findUserByID_isSome_of_mem {l : List User} {u : User} (h : u ∈ l) :
    (findUserByID l u.id).isSome = true := by
  unfold findUserByID
  rw [List.find?_isSome]
  exact ⟨u, h, by simp⟩

theorem findUserByUsername_none {l : List User} {n : String} (hn : n ≠ "")
    (h : findUserByUsername l n = none) : ∀ v ∈ l, v.username ≠ n := by
  unfold findUserByUsername at h
  rw [if_neg hn, List.find?_eq_none] at h
  intro v hv
  simpa using h v hv

theorem findUserByEmail_none {l : List User} {n : String} (hn : n ≠ "")
    (h : findUserByEmail l n = none) : ∀ v ∈ l, v.email ≠ n := by
  unfold findUserByEmail at h
  rw [if_neg hn, List.find?_eq_none] at h
  intro v hv
  simpa using h v hv

theorem findUserByUsername_isSome {l : List User} {n : String} (hn : n ≠ "")
    (h : ∃ v ∈ l, v.username = n) : (findUserByUsername l n).isSome = true := by
  unfold findUserByUsername
  rw [if_neg hn, List.find?_isSome]
  rcases h with ⟨v, hv, he⟩
  exact ⟨v, hv, by simp [he]⟩

theorem findUserByEmail_isSome {l : List User} {n : String} (hn : n ≠ "")
    (h : ∃ v ∈ l, v.email = n) : (findUserByEmail l n).isSome = true := by
  unfold findUserByEmail
  rw [if_neg hn, List.find?_isSome]
  rcases h with ⟨v, hv, he⟩
  exact ⟨v, hv, by simp [he]⟩

/-! ### Facts about the binding checks -/

theorem bindRegister_parts {req : RegisterRequest} (h : bindRegister req = true) :
    3 ≤ req.username.length ∧ validEmailGo req.email = true ∧
      8 ≤ req.password.length := by
  simp only [bindRegister, Bool.and_eq_true, decide_eq_true_eq] at h
  tauto

theorem username_ne_of_len {s : String} (h : 3 ≤ s.length) : s ≠ "" := by
  intro he
  rw [he] at h
  exact absurd h (by decide)

theorem validEmailGo_ne {e : String} (h : validEmailGo e = true) : e ≠ "" := by
  simp only [validEmailGo, Bool.and_eq_true, decide_eq_true_eq] at h
  exact h.1

/-! ### The reachable-state invariant -/

theorem usersDistinct_update {p : User → Bool} {f : User → User} {l : List User}
    (hf : ∀ v, (f v).username = v.username ∧ (f v).email = v.email)
    (h : UsersDistinct l) : UsersDistinct (updateFirstWhere p f l) := by
  have hmap := updateFirstWhere_map_eq (fun u => (u.username, u.email)) p f
    (fun v => by simp [(hf v).1, (hf v).2]) l
  have h1 : (l.map (fun u => (u.username, u.email))).Pairwise
      (fun a b => a.1 ≠ b.1 ∧ a.2 ≠ b.2) := by
    rw [List.pairwise_map]
    exact h
  rw [← hmap, List.pairwise_map] at h1
  exact h1

theorem goodState_update {st : ServerState} (p : User → Bool) (f : User → User)
    (hf : ∀ v, (f v).username = v.username ∧ (f v).email = v.email ∧
      (f v).id = v.id ∧ (f v).isActive = v.isActive)
    (h : GoodState st) : GoodState { st with users := updateFirstWhere p f st.users } := by
  refine ⟨usersDistinct_update (fun v => ⟨(hf v).1, (hf v).2.1⟩) h.1, ?_, ?_⟩
  · intro u hu
    rcases mem_updateFirstWhere hu with hm | ⟨y, hy, rfl⟩
    · exact h.2.1 u hm
    · rw [(hf y).2.2.2]
      exact h.2.1 y hy
  · intro q hq
    have he := findUserByID_update_isSome p f (fun v => (hf v).2.2.1) q.2 st.users
    rw [show ({ st with users := updateFirstWhere p f st.users } : ServerState).users =
      updateFirstWhere p f st.users from rfl, he]
    exact h.2.2 q hq

theorem goodState_insertRT {st : ServerState} (fresh : String) (uid : Nat)
    (hus : (findUserByID st.users uid).isSome = true) (h : GoodState st) :
    GoodState { st with refreshTokens := insertRT st.refreshTokens fresh uid } := by
  refine ⟨h.1, h.2.1, ?_⟩
  intro q hq
  rw [show ({ st with refreshTokens := insertRT st.refreshTokens fresh uid } :
    ServerState).refreshTokens = insertRT st.refreshTokens fresh uid from rfl,
    insertRT] at hq
  rcases List.mem_cons.mp hq with rfl | hq2
  · exact hus
  · exact h.2.2 q (mem_deleteRT hq2)

theorem goodState_deleteRT {st : ServerState} (k : String) (h : GoodState st) :
    GoodState { st with refreshTokens := deleteRT st.refreshTokens k } :=
  ⟨h.1, h.2.1, fun q hq => h.2.2 q (mem_deleteRT hq)⟩

theorem recordFailedAttempt_fields (v : User) (now : Nat) :
    (recordFailedAttempt v now).username = v.username ∧
    (recordFailedAttempt v now).email = v.email ∧
    (recordFailedAttempt v now).id = v.id ∧
    (recordFailedAttempt v now).isActive = v.isActive := by
  refine ⟨?_, ?_, ?_, ?_⟩ <;>
    · unfold recordFailedAttempt
      dsimp only
      split <;> rfl

theorem goodState_register (st : ServerState) (req : RegisterRequest) (now : Nat)
    (h : GoodState st) : GoodState (register st req now).2 := by
  unfold register
  split
  · exact h
  · split
    · exact h
    · split
      · exact h
      · split
        · exact h
        · rename_i hbind hconf hstr hdup
          have hb : bindRegister req = true := by
            cases hbr : bindRegister req
            · rw [hbr] at hbind
              exact absurd rfl hbind
            · rfl
          have hdup1 : (findUserByUsername st.users req.username).isSome = false := by
            cases hx : (findUserByUsername st.users req.username).isSome
            · rfl
            · exact absurd (by rw [hx, Bool.true_or]) hdup
          have hdup2 : (findUserByEmail st.users req.email).isSome = false := by
            cases hx : (findUserByEmail st.users req.email).isSome
            · rfl
            · exact absurd (by rw [hx, Bool.or_true]) hdup
          have hparts := bindRegister_parts hb
          have hnu : req.username ≠ "" := username_ne_of_len hparts.1
          have hne : req.email ≠ "" := validEmailGo_ne hparts.2.1
          have hnone1 : findUserByUsername st.users req.username = none :=
            Option.not_isSome_iff_eq_none.mp (by rw [hdup1]; exact Bool.false_ne_true)
          have hnone2 : findUserByEmail st.users req.email = none :=
            Option.not_isSome_iff_eq_none.mp (by rw [hdup2]; exact Bool.false_ne_true)
          dsimp only
          refine ⟨?_, ?_, ?_⟩
          · refine List.pairwise_append.mpr ⟨h.1, List.pairwise_singleton _ _, ?_⟩
            intro a ha b hb
            rw [List.mem_singleton] at hb
            subst hb
            exact ⟨findUserByUsername_none hnu hnone1 a ha,
              findUserByEmail_none hne hnone2 a ha⟩
          · intro u hu
            rcases List.mem_append.mp hu with hm | hm
            · exact h.2.1 u hm
            · rw [List.mem_singleton] at hm
              subst hm
              rfl
          · intro q hq
            rcases Option.isSome_iff_exists.mp (h.2.2 q hq) with ⟨u, hu⟩
            rw [findUserByID_append st.users _ q.2 hu]
            rfl

theorem goodState_login (st : ServerState) (req : LoginRequest) (now : Nat)
    (fresh : String) (h : GoodState st) : GoodState (login st req now fresh).2 := by
  unfold login
  split
  · exact h
  · split
    · exact h
    · rename_i user hfind
      split
      · exact h
      · split
        · exact goodState_update _ _ (fun v => recordFailedAttempt_fields v now) h
        · have hst1 := goodState_update (fun u => u.username == req.username)
            (fun u => { resetFailedAttempts u with lastLogin := some now })
            (fun v => ⟨rfl, rfl, rfl, rfl⟩) h
          have hmem : user ∈ st.users := mem_of_findUserByUsername hfind
          have hid : (findUserByID st.users user.id).isSome = true :=
            findUserByID_isSome_of_mem hmem
          have hid1 := findUserByID_update_isSome
            (fun u => u.username == req.username)
            (fun u => { resetFailedAttempts u with lastLogin := some now })
            (fun v => rfl) user.id st.users
          rw [hid] at hid1
          exact goodState_insertRT fresh user.id hid1 hst1

theorem goodState_logout (st : ServerState) (header : AuthHeader) (rt : String)
    (h : GoodState st) : GoodState (logout st header rt).2 := by
  unfold logout
  split
  · exact h
  · dsimp only
    split
    · exact ⟨h.1, h.2.1, fun q hq => h.2.2 q (mem_deleteRT hq)⟩
    · exact h

theorem goodState_refreshToken (st : ServerState) (tok : String) (now : Nat)
    (fresh : String) (h : GoodState st) : GoodState (refreshToken st tok now fresh).2 := by
  unfold refreshToken
  split
  · exact h
  · split
    · exact h
    · rename_i userID hlook
      split
      · exact h
      · rename_i user hfindu
        split
        · exact h
        · have h1 : GoodState { st with refreshTokens := deleteRT st.refreshTokens tok } :=
            goodState_deleteRT tok h
          have hmem : user ∈ st.users := by
            unfold findUserByID at hfindu
            exact List.mem_of_find?_eq_some hfindu
          have hid : (findUserByID st.users user.id).isSome = true :=
            findUserByID_isSome_of_mem hmem
          exact goodState_insertRT fresh user.id hid h1

theorem goodState_changePassword (st : ServerState) (claims : JWTClaims)
    (cur new : String) (now : Nat) (h : GoodState st) :
    GoodState (changePassword st claims cur new now).2 := by
  unfold changePassword
  split
  · exact h
  · split
    · exact h
    · split
      · exact h
      · exact goodState_update _ _ (fun v => ⟨rfl, rfl, rfl, rfl⟩) h

theorem goodState_changeUserRole (st : ServerState) (id : Nat) (role : String)
    (now : Nat) (h : GoodState st) : GoodState (changeUserRole st id role now).2 := by
  unfold changeUserRole
  split
  · exact h
  · split
    · exact h
    · split
      · exact h
      · exact goodState_update _ _ (fun v => ⟨rfl, rfl, rfl, rfl⟩) h

theorem goodState_step {st : ServerState} (op : Op) (h : GoodState st) :
    GoodState (stepState st op) := by
  cases op with
  | opRegister req now => exact goodState_register st req now h
  | opLogin req now fresh => exact goodState_login st req now fresh h
  | opLogout header rt => exact goodState_logout st header rt h
  | opRefresh tok now fresh => exact goodState_refreshToken st tok now fresh h
  | opChangePassword claims cur new now => exact goodState_changePassword st claims cur new now h
  | opChangeUserRole id role now => exact goodState_changeUserRole st id role now h
  | opUpdateProfile => exact h

theorem goodState_initial : GoodState initialState := by
  refine ⟨List.pairwise_singleton _ _, ?_, ?_⟩
  · intro u hu
    rw [show initialState.users = [adminUser] from rfl, List.mem_singleton] at hu
    subst hu
    rfl
  · intro q hq
    exact absurd hq (List.not_mem_nil q)

theorem reachable_good {st : ServerState} (h : Reachable st) : GoodState st := by
  induction h with
  | refl => exact goodState_initial
  | step _ op ih => exact goodState_step op ih

/-! ### Single-step login lemmas -/

theorem isAccountLocked_none {u : User} (h : u.lockedUntil = none) (now : Nat) :
    isAccountLocked u now = false := by
  unfold isAccountLocked
  rw [h]

theorem isAccountLocked_some {u : User} {t : Nat} (h : u.lockedUntil = some t)
    (now : Nat) : isAccountLocked u now = decide (now < t) := by
  unfold isAccountLocked
  rw [h]

theorem recordFailedAttempt_of_lt {u : User} (now : Nat)
    (h : u.failedAttempts + 1 < maxFailedAttempts) :
    recordFailedAttempt u now = { u with failedAttempts := u.failedAttempts + 1 } := by
  unfold recordFailedAttempt
  dsimp only
  rw [if_neg (by omega)]

theorem recordFailedAttempt_of_ge {u : User} (now : Nat)
    (h : maxFailedAttempts ≤ u.failedAttempts + 1) :
    recordFailedAttempt u now =
      { u with failedAttempts := 0, lockedUntil := some (now + lockoutDuration) } := by
  unfold recordFailedAttempt
  dsimp only
  rw [if_pos (by omega)]

theorem login_unknown_step (st : ServerState) (uname pw : String) (now : Nat)
    (fresh : String) (hn : uname ≠ "") (hp : 8 ≤ pw.length)
    (hfind : findUserByUsername st.users uname = none) :
    login st ⟨uname, pw⟩ now fresh =
      (Except.error (401, "Invalid credentials"), st) := by
  have hcond : ¬((⟨uname, pw⟩ : LoginRequest).username = "" ∨
      (⟨uname, pw⟩ : LoginRequest).password.length < 8) := by
    push_neg
    exact ⟨hn, hp⟩
  unfold login
  rw [if_neg hcond, hfind]

theorem login_fail_step (st : ServerState) (uname pw : String) (now : Nat)
    (fresh : String) (u : User) (hn : uname ≠ "") (hp : 8 ≤ pw.length)
    (hfind : findUserByUsername st.users uname = some u)
    (hlock : isAccountLocked u now = false)
    (hpw : verifyPassword pw u.passwordHash = false) :
    login st ⟨uname, pw⟩ now fresh =
      (Except.error (401, "Invalid credentials"), loginFailUpdate st uname now) := by
  have hcond : ¬((⟨uname, pw⟩ : LoginRequest).username = "" ∨
      (⟨uname, pw⟩ : LoginRequest).password.length < 8) := by
    push_neg
    exact ⟨hn, hp⟩
  unfold login
  rw [if_neg hcond, hfind]
  dsimp only
  rw [hlock, hpw]
  rfl

theorem login_locked_step (st : ServerState) (uname pw : String) (now : Nat)
    (fresh : String) (u : User) (hn : uname ≠ "") (hp : 8 ≤ pw.length)
    (hfind : findUserByUsername st.users uname = some u)
    (hlock : isAccountLocked u now = true) :
    login st ⟨uname, pw⟩ now fresh =
      (Except.error (423, "Account is temporarily locked"), st) := by
  have hcond : ¬((⟨uname, pw⟩ : LoginRequest).username = "" ∨
      (⟨uname, pw⟩ : LoginRequest).password.length < 8) := by
    push_neg
    exact ⟨hn, hp⟩
  unfold login
  rw [if_neg hcond, hfind]
  dsimp only
  rw [hlock]
  rfl

theorem login_success_step (st : ServerState) (uname pw : String) (now : Nat)
    (fresh : String) (u : User) (hn : uname ≠ "") (hp : 8 ≤ pw.length)
    (hfind : findUserByUsername st.users uname = some u)
    (hlock : isAccountLocked u now = false)
    (hpw : verifyPassword pw u.passwordHash = true) :
    login st ⟨uname, pw⟩ now fresh =
      (Except.ok
        { accessToken := Str.jwt
            { userID := u.id, username := u.username, role := u.role,
              issuedAt := now, expiresAt := now + accessTokenTTL } jwtSecret,
          refreshToken := fresh, tokenType := "Bearer",
          expiresIn := accessTokenTTL, expiresAt := now + accessTokenTTL },
        { loginSuccessUpdate st uname now with
          refreshTokens := insertRT st.refreshTokens fresh u.id }) := by
  have hcond : ¬((⟨uname, pw⟩ : LoginRequest).username = "" ∨
      (⟨uname, pw⟩ : LoginRequest).password.length < 8) := by
    push_neg
    exact ⟨hn, hp⟩
  unfold login
  rw [if_neg hcond, hfind]
  dsimp only
  rw [hlock, hpw]
  rfl

/-! ### The password-strength loop -/

theorem pwStep_eq (f : PwFlags) (c : Char) :
    pwStep f c = { hasUpper := f.hasUpper || isUpperGo c,
                   hasLower := f.hasLower || isLowerGo c,
                   hasDigit := f.hasDigit || isDigitGo c,
                   hasSpecial := f.hasSpecial || isSpecialGo c } := by
  unfold pwStep isSpecialGo
  by_cases h1 : isUpperGo c = true
  · have h2 : isLowerGo c = false := by
      simp only [isUpperGo, decide_eq_true_eq] at h1
      simp only [isLowerGo, decide_eq_false_iff_not]
      omega
    have h3 : isDigitGo c = false := by
      simp only [isUpperGo, decide_eq_true_eq] at h1
      simp only [isDigitGo, decide_eq_false_iff_not]
      omega
    rw [if_pos h1, h1, h2, h3]
    simp
  · have h1' : isUpperGo c = false := Bool.eq_false_iff.mpr h1
    rw [if_neg h1, h1']
    by_cases h2 : isLowerGo c = true
    · have h3 : isDigitGo c = false := by
        simp only [isLowerGo, decide_eq_true_eq] at h2
        simp only [isDigitGo, decide_eq_false_iff_not]
        omega
      rw [if_pos h2, h2, h3]
      simp
    · have h2' : isLowerGo c = false := Bool.eq_false_iff.mpr h2
      rw [if_neg h2, h2']
      by_cases h3 : isDigitGo c = true
      · rw [if_pos h3, h3]
        simp
      · have h3' : isDigitGo c = false := Bool.eq_false_iff.mpr h3
        rw [if_neg h3, h3']
        simp

theorem pwFlags_foldl (cs : List Char) (f0 : PwFlags) :
    cs.foldl pwStep f0 =
      { hasUpper := f0.hasUpper || cs.any isUpperGo,
        hasLower := f0.hasLower || cs.any isLowerGo,
        hasDigit := f0.hasDigit || cs.any isDigitGo,
        hasSpecial := f0.hasSpecial || cs.any isSpecialGo } := by
  induction cs generalizing f0 with
  | nil => simp
  | cons c cs ih =>
    rw [List.foldl_cons, ih, pwStep_eq]
    simp [List.any_cons, Bool.or_assoc]

theorem exists_of_findUserByUsername_isSome {l : List User} {n : String}
    (h : (findUserByUsername l n).isSome = true) : ∃ v ∈ l, v.username = n := by
  unfold findUserByUsername at h
  split at h
  · exact absurd h (by simp)
  · rw [List.find?_isSome] at h
    rcases h with ⟨v, hv, he⟩
    exact ⟨v, hv, by simpa using he⟩

theorem exists_of_findUserByEmail_isSome {l : List User} {n : String}
    (h : (findUserByEmail l n).isSome = true) : ∃ v ∈ l, v.email = n := by
  unfold findUserByEmail at h
  split at h
  · exact absurd h (by simp)
  · rw [List.find?_isSome] at h
    rcases h with ⟨v, hv, he⟩
    exact ⟨v, hv, by simpa using he⟩

theorem logout_blacklists_token (st : ServerState) (header : AuthHeader)
    (rt : String) (hne : header.bearerTag = true ∨ header.token ≠ Str.plain ("")) :
    header.token ∈ (logout st header rt).2.blacklistedTokens := by
  have hcond : ¬((!header.bearerTag) = true ∧ header.token = Str.plain ("")) := by
    rcases hne with h | h
    · intro hc
      rw [h] at hc
      exact absurd hc.1 (by simp)
    · intro hc
      exact h hc.2
  unfold logout
  rw [if_neg hcond]
  dsimp only
  split
  · exact mem_insertStr_self _ _
  · exact mem_insertStr_self _ _

/-! ### Claim theorems -/

/-- C8: for every password string p, isStrongPassword returns true if and
only if p has Go length (UTF-8 bytes; character count on ASCII) at least 8
and contains at least one uppercase letter, one lowercase letter, one digit,
and one non-alphanumeric character. The embedding is a pure Lean function,
matching the side-effect-free Go loop. -/
theorem claim8_password_strength (p : String) :
    isStrongPassword p = true ↔
      (8 ≤ goStrLen p ∧
        (∃ c ∈ p.data, isUpperGo c = true) ∧
        (∃ c ∈ p.data, isLowerGo c = true) ∧
        (∃ c ∈ p.data, isDigitGo c = true) ∧
        (∃ c ∈ p.data, isUpperGo c = false ∧ isLowerGo c = false ∧
          isDigitGo c = false)) := by
  unfold isStrongPassword
  by_cases hl : goStrLen p < 8
  · rw [if_pos hl]
    constructor
    · intro h
      exact absurd h (by simp)
    · intro h
      exact absurd h.1 (by omega)
  · rw [if_neg hl]
    dsimp only
    rw [pwFlags_foldl]
    simp only [Bool.false_or, Bool.and_eq_true, List.any_eq_true, isSpecialGo,
      Bool.not_eq_true']
    constructor
    · rintro ⟨⟨⟨h1, h2⟩, h3⟩, h4⟩
      obtain ⟨c, hc, ⟨hu, hlo⟩, hd⟩ := h4
      exact ⟨by omega, h1, h2, h3, c, hc, hu, hlo, hd⟩
    · rintro ⟨_, h1, h2, h3, h4⟩
      obtain ⟨c, hc, hu, hlo, hd⟩ := h4
      exact ⟨⟨⟨h1, h2⟩, h3⟩, c, hc, ⟨hu, hlo⟩, hd⟩

/-- C9: for every request with a non-empty Authorization header, logout
succeeds, and the blacklist gains exactly the header with the Bearer prefix
stripped — whatever string that is — with no signature, structure or expiry
validation (the statement holds for arbitrary Str, including plain garbage),
so the blacklist can accumulate arbitrary strings. -/
theorem claim9_logout_accepts_any_token (st : ServerState) (header : AuthHeader)
    (rt : String) (hne : header.bearerTag = true ∨ header.token ≠ Str.plain ("")) :
    (logout st header rt).1 = Except.ok ("Logout successful") ∧
    (logout st header rt).2.blacklistedTokens =
      insertStr st.blacklistedTokens header.token := by
  have hcond : ¬((!header.bearerTag) = true ∧ header.token = Str.plain ("")) := by
    rcases hne with h | h
    · intro hc
      rw [h] at hc
      exact absurd hc.1 (by simp)
    · intro hc
      exact h hc.2
  unfold logout
  rw [if_neg hcond]
  dsimp only
  constructor
  · rfl
  · split <;> rfl

/-- Witness for C9 at a fabricated token that is not a JWT at all. -/
theorem claim9_witness :
    (logout initialState ⟨false, Str.plain ("zzz")⟩ "").1 =
      Except.ok ("Logout successful") ∧
    (logout initialState ⟨false, Str.plain ("zzz")⟩ "").2.blacklistedTokens =
      insertStr initialState.blacklistedTokens (Str.plain ("zzz")) :=
  claim9_logout_accepts_any_token initialState ⟨false, Str.plain ("zzz")⟩ ""
    (Or.inr (by decide))

/-- C10: every user record created through registration has role user,
is-active true and email-verified false, hence never the moderator or admin
role; exactly the one new record is appended. -/
theorem claim10_register_defaults (st : ServerState) (req : RegisterRequest)
    (now : Nat) (u : User) (st' : ServerState)
    (h : register st req now = (Except.ok u, st')) :
    u.role = RoleUser ∧ u.isActive = true ∧ u.emailVerified = false ∧
      u.role ≠ RoleAdmin ∧ u.role ≠ RoleModerator ∧
      st'.users = st.users ++ [u] := by
  unfold register at h
  split at h
  · simp at h
  · split at h
    · simp at h
    · split at h
      · simp at h
      · split at h
        · simp at h
        · dsimp only at h
          rw [Prod.mk.injEq] at h
          obtain ⟨h1, h2⟩ := h
          injection h1 with h1
          subst h1
          subst h2
          exact ⟨rfl, rfl, rfl, (by decide : ("user" : String) ≠ RoleAdmin),
            (by decide : ("user" : String) ≠ RoleModerator), rfl⟩

/-- Witness for C10: the concrete registration of alice from the seeded
initial state. -/
theorem claim10_witness :
    cRegUser.role = RoleUser ∧ cRegUser.isActive = true ∧
      cRegUser.emailVerified = false ∧ cRegUser.role ≠ RoleAdmin ∧
      cRegUser.role ≠ RoleModerator ∧
      cRegState.users = initialState.users ++ [cRegUser] :=
  claim10_register_defaults initialState cRegReq 0 cRegUser cRegState (by rfl)

/-- C4 (code bug): the refresh handler consults no timestamp at all, so a
refresh token whose 7-day TTL has long elapsed still rotates successfully:
with a mapping created at time 0, the rotate call succeeds at every instant
now — in particular at now past refreshTokenTTL — instead of failing with
the invalid-or-expired error that the declared (but never read)
refreshTokenTTL constant calls for. -/
theorem claim4_refresh_ignores_ttl :
    ∀ now : Nat, (refreshToken cStRT ("rtOld") now ("rtNew")).1 =
      Except.ok
        { accessToken := Str.jwt
            { userID := 1, username := "admin", role := RoleAdmin,
              issuedAt := now, expiresAt := now + accessTokenTTL } jwtSecret,
          refreshToken := "rtNew", tokenType := "Bearer",
          expiresIn := accessTokenTTL, expiresAt := now + accessTokenTTL } := by
  intro now
  rfl

/-- C5 counterexample: the hashing on the registration path uses
bcrypt.DefaultCost = 10, below the cost 12 every hashing site is claimed to
use. -/
theorem claim5_counterexample :
    ((register initialState cRegReq 0).1).map (fun u => u.passwordHash.cost) =
      Except.ok bcryptDefaultCost ∧ bcryptDefaultCost < 12 := by
  constructor
  · rfl
  · decide

/-- C5 amended: the standalone hashPassword operation uses bcrypt with cost
12, but the registration and password-change paths hash with
bcrypt.DefaultCost, which is 10. -/
theorem claim5_amended_costs :
    (∀ p : String, (hashPassword p).cost = 12) ∧
    (∀ (st : ServerState) (req : RegisterRequest) (now : Nat) (u : User)
      (st' : ServerState), register st req now = (Except.ok u, st') →
        u.passwordHash = bcryptGenerate req.password bcryptDefaultCost) ∧
    (∀ (st : ServerState) (claims : JWTClaims) (cur new : String) (now : Nat)
      (r : String) (st1 : ServerState),
      changePassword st claims cur new now = (Except.ok r, st1) →
        st1.users = updateFirstWhere (fun u => u.id == claims.userID)
          (changePasswordUpdate new now) st.users) ∧
    bcryptDefaultCost = 10 := by
  refine ⟨fun p => rfl, ?_, ?_, rfl⟩
  · intro st req now u st' h
    unfold register at h
    split at h
    · simp at h
    · split at h
      · simp at h
      · split at h
        · simp at h
        · split at h
          · simp at h
          · dsimp only at h
            rw [Prod.mk.injEq] at h
            obtain ⟨h1, h2⟩ := h
            injection h1 with h1
            subst h1
            rfl
  · intro st claims cur new now r st1 h
    unfold changePassword at h
    split at h
    · simp at h
    · split at h
      · simp at h
      · split at h
        · simp at h
        · dsimp only at h
          rw [Prod.mk.injEq] at h
          obtain ⟨h1, h2⟩ := h
          subst h2
          rfl

/-- Witness for C5: the cost-12 standalone hash and the concrete cost-10
registration hash. -/
theorem claim5_witness :
    (hashPassword ("x")).cost = 12 ∧
      cRegUser.passwordHash = bcryptGenerate (cRegReq.password) bcryptDefaultCost :=
  ⟨claim5_amended_costs.1 ("x"),
    claim5_amended_costs.2.1 initialState cRegReq 0 cRegUser cRegState (by rfl)⟩

/-- C7: login answers an unknown username and a known-username-wrong-password
request with the identical error outcome (the same 401 status and the same
caller-visible message), so the two cases cannot be told apart and usernames
cannot be enumerated; only the locked-account branch returns anything
different. -/
theorem claim7_uniform_login_error (st : ServerState) (un1 pw1 un2 pw2 : String)
    (now1 now2 : Nat) (f1 f2 : String) (u : User)
    (hn1 : un1 ≠ "") (hp1 : 8 ≤ pw1.length)
    (hn2 : un2 ≠ "") (hp2 : 8 ≤ pw2.length)
    (h1 : findUserByUsername st.users un1 = none)
    (h2 : findUserByUsername st.users un2 = some u)
    (hlock : isAccountLocked u now2 = false)
    (hpw : verifyPassword pw2 u.passwordHash = false) :
    (login st ⟨un1, pw1⟩ now1 f1).1 = (login st ⟨un2, pw2⟩ now2 f2).1 ∧
    (login st ⟨un1, pw1⟩ now1 f1).1 = Except.error (401, "Invalid credentials") := by
  rw [login_unknown_step st un1 pw1 now1 f1 hn1 hp1 h1,
    login_fail_step st un2 pw2 now2 f2 u hn2 hp2 h2 hlock hpw]
  exact ⟨rfl, rfl⟩

/-- Witness for C7: an unknown user and the admin with a wrong password get
the same error from the seeded initial state. -/
theorem claim7_witness :
    (login initialState ⟨"nosuchuser", "Whatever1!"⟩ 3 ("fa")).1 =
      (login initialState ⟨"admin", "WrongPass1"⟩ 4 ("fb")).1 ∧
    (login initialState ⟨"nosuchuser", "Whatever1!"⟩ 3 ("fa")).1 =
      Except.error (401, "Invalid credentials") :=
  claim7_uniform_login_error initialState ("nosuchuser") ("Whatever1!")
    ("admin") ("WrongPass1") 3 4 ("fa") ("fb") adminUser (by decide) (by decide)
    (by decide) (by decide) (by rfl) (by rfl) (by rfl) (by rfl)

/-- C3: validation checks the blacklist first, so a revoked token is rejected
as blacklisted whatever its shape — even malformed or cryptographically
valid; a non-blacklisted token fails as malformed on a structure or signature
failure, as expired when now is past expires-at, and otherwise yields exactly
the embedded claims; and once logout blacklists a bearer token, validation of
that token fails as blacklisted in every state reachable afterwards. -/
theorem claim3_validate_precedence :
    (∀ (bl : List Str) (t : Str) (now : Nat), t ∈ bl →
        validateToken bl t now = Except.error TokenErr.blacklisted) ∧
    (∀ (bl : List Str) (s : String) (now : Nat), Str.plain s ∉ bl →
        validateToken bl (Str.plain s) now = Except.error TokenErr.malformed) ∧
    (∀ (bl : List Str) (c : JWTClaims) (k : String) (now : Nat),
        Str.jwt c k ∉ bl → k ≠ jwtSecret →
        validateToken bl (Str.jwt c k) now = Except.error TokenErr.malformed) ∧
    (∀ (bl : List Str) (c : JWTClaims) (now : Nat), Str.jwt c jwtSecret ∉ bl →
        c.expiresAt < now →
        validateToken bl (Str.jwt c jwtSecret) now = Except.error TokenErr.expired) ∧
    (∀ (bl : List Str) (c : JWTClaims) (now : Nat), Str.jwt c jwtSecret ∉ bl →
        now ≤ c.expiresAt →
        validateToken bl (Str.jwt c jwtSecret) now = Except.ok c) ∧
    (∀ (st : ServerState) (header : AuthHeader) (rt : String),
        (header.bearerTag = true ∨ header.token ≠ Str.plain ("")) →
        ∀ st' : ServerState, ReachableFrom (logout st header rt).2 st' →
          ∀ now : Nat, validateToken st'.blacklistedTokens header.token now =
            Except.error TokenErr.blacklisted) := by
  have hbl : ∀ (bl : List Str) (t : Str) (now : Nat), t ∈ bl →
      validateToken bl t now = Except.error TokenErr.blacklisted := by
    intro bl t now hmem
    unfold validateToken
    rw [if_pos (containsStr_iff.mpr hmem)]
  have hnotc : ∀ (bl : List Str) (t : Str), t ∉ bl → ¬containsStr bl t = true :=
    fun bl t h hc => h (containsStr_iff.mp hc)
  refine ⟨hbl, ?_, ?_, ?_, ?_, ?_⟩
  · intro bl s now hmem
    unfold validateToken
    rw [if_neg (hnotc _ _ hmem)]
  · intro bl c k now hmem hk
    unfold validateToken
    rw [if_neg (hnotc _ _ hmem)]
    dsimp only
    rw [if_pos hk]
  · intro bl c now hmem hexp
    unfold validateToken
    rw [if_neg (hnotc _ _ hmem)]
    dsimp only
    rw [if_neg (by simp), if_pos hexp]
  · intro bl c now hmem hexp
    unfold validateToken
    rw [if_neg (hnotc _ _ hmem)]
    dsimp only
    rw [if_neg (by simp), if_neg (by omega)]
  · intro st header rt hne st' hre now
    exact hbl _ _ now (blacklist_mono hre (logout_blacklists_token st header rt hne))

/-- Witness for C3: a blacklisted garbage token, a non-blacklisted garbage
token, and a token revoked by logout checked in the resulting state. -/
theorem claim3_witness :
    validateToken [Str.plain ("g")] (Str.plain ("g")) 0 =
      Except.error TokenErr.blacklisted ∧
    validateToken [] (Str.plain ("g")) 0 = Except.error TokenErr.malformed ∧
    validateToken (logout initialState ⟨true, Str.plain ("g")⟩ "").2.blacklistedTokens
      (Str.plain ("g")) 7 = Except.error TokenErr.blacklisted :=
  ⟨claim3_validate_precedence.1 _ _ 0 (by decide),
    claim3_validate_precedence.2.1 [] ("g") 0 (by decide),
    claim3_validate_precedence.2.2.2.2.2 initialState ⟨true, Str.plain ("g")⟩ ""
      (Or.inl rfl) (logout initialState ⟨true, Str.plain ("g")⟩ "").2
      (ReachableFrom.refl _) 7⟩

/-- C6: for a request that passes validation, registration fails with the
409 conflict error exactly when the requested username or email already
belongs to a stored record, leaving the state unchanged, and otherwise
appends exactly one new record; consequently in every state reachable
through the operations the active records carry pairwise distinct usernames
and emails. -/
theorem claim6_registration_uniqueness :
    (∀ (st : ServerState) (req : RegisterRequest) (now : Nat),
      bindRegister req = true → req.password = req.confirmPassword →
      isStrongPassword req.password = true →
      (((∃ v ∈ st.users, v.username = req.username) ∨
          (∃ v ∈ st.users, v.email = req.email)) →
        register st req now =
          (Except.error (409, "Username or email is already taken"), st)) ∧
      (¬((∃ v ∈ st.users, v.username = req.username) ∨
          (∃ v ∈ st.users, v.email = req.email)) →
        ∃ newUser : User, register st req now =
          (Except.ok newUser,
            { st with users := st.users ++ [newUser],
                      nextUserID := st.nextUserID + 1 }))) ∧
    (∀ st : ServerState, Reachable st →
      (st.users.filter (fun u => u.isActive)).Pairwise
        (fun a b => a.username ≠ b.username ∧ a.email ≠ b.email)) := by
  constructor
  · intro st req now hbind hconf hstr
    have hnu : req.username ≠ "" := username_ne_of_len (bindRegister_parts hbind).1
    have hne : req.email ≠ "" := validEmailGo_ne (bindRegister_parts hbind).2.1
    have e1 : ¬(!bindRegister req) = true := by rw [hbind]; simp
    have e2 : ¬(req.password ≠ req.confirmPassword) := fun hx => hx hconf
    have e3 : ¬(!isStrongPassword req.password) = true := by rw [hstr]; simp
    constructor
    · intro htaken
      have hor : ((findUserByUsername st.users req.username).isSome ||
          (findUserByEmail st.users req.email).isSome) = true := by
        rcases htaken with h | h
        · rw [findUserByUsername_isSome hnu h, Bool.true_or]
        · rw [findUserByEmail_isSome hne h, Bool.or_true]
      unfold register
      rw [if_neg e1, if_neg e2, if_neg e3, if_pos hor]
    · intro hfree
      have hor : ¬((findUserByUsername st.users req.username).isSome ||
          (findUserByEmail st.users req.email).isSome) = true := by
        intro hx
        rcases (Bool.or_eq_true _ _).mp hx with h | h
        · exact hfree (Or.inl (exists_of_findUserByUsername_isSome h))
        · exact hfree (Or.inr (exists_of_findUserByEmail_isSome h))
      unfold register
      rw [if_neg e1, if_neg e2, if_neg e3, if_neg hor]
      exact ⟨_, rfl⟩
  · intro st hst
    exact List.Pairwise.sublist (List.filter_sublist _) (reachable_good hst).1

/-- Witness for C6: the fresh registration of alice succeeds from the seeded
state, re-registering the same request in the resulting state conflicts, and
the seeded state satisfies the uniqueness invariant. -/
theorem claim6_witness :
    (∃ newUser : User, register initialState cRegReq 0 =
      (Except.ok newUser,
        { initialState with users := initialState.users ++ [newUser],
                            nextUserID := initialState.nextUserID + 1 })) ∧
    register cRegState cRegReq 5 =
      (Except.error (409, "Username or email is already taken"), cRegState) ∧
    ((initialState.users.filter (fun u => u.isActive)).Pairwise
      (fun a b => a.username ≠ b.username ∧ a.email ≠ b.email)) :=
  ⟨(claim6_registration_uniqueness.1 initialState cRegReq 0 (by decide) rfl
      (by decide)).2 (by decide),
    (claim6_registration_uniqueness.1 cRegState cRegReq 5 (by decide) rfl
      (by decide)).1 (by decide),
    claim6_registration_uniqueness.2 initialState (ReachableFrom.refl _)⟩

/-- C1: refresh tokens are single-use. In every reachable state, a refresh
token present in the mapping resolves to a stored active user, the first
rotate call with it succeeds — deleting the old mapping and issuing a fresh
access/refresh pair — and every subsequent rotate call with the same
consumed token (at any time, with any fresh randomness) fails with the
invalid-or-expired error, so no ordering of two rotate calls on one token
lets both succeed; the freshness hypothesis states that the random
replacement token differs from the consumed one. -/
theorem claim1_refresh_single_use (st : ServerState) (t fresh : String)
    (uid : Nat) (now : Nat) (hreach : Reachable st)
    (hlook : lookupRT st.refreshTokens t = some uid)
    (ht : t ≠ "") (hfr : fresh ≠ t) :
    ∃ user : User, findUserByID st.users uid = some user ∧
      user.isActive = true ∧
      refreshToken st t now fresh =
        (Except.ok (mintedResponse user.id user.username user.role now fresh),
          rotatedState st t fresh user.id) ∧
      (∀ (now2 : Nat) (fresh2 : String),
        (refreshToken (rotatedState st t fresh user.id) t now2 fresh2).1 =
          Except.error (401, "Invalid or expired refresh token")) := by
  obtain ⟨good1, good2, good3⟩ := reachable_good hreach
  have hpair : ∃ pr : String × Nat,
      st.refreshTokens.find? (fun p => p.1 == t) = some pr ∧ pr.2 = uid := by
    unfold lookupRT at hlook
    rcases Option.map_eq_some'.mp hlook with ⟨pr, hpr, he⟩
    exact ⟨pr, hpr, he⟩
  rcases hpair with ⟨pr, hpr, hpruid⟩
  have hmem : pr ∈ st.refreshTokens := List.mem_of_find?_eq_some hpr
  have hid : (findUserByID st.users uid).isSome = true := by
    rw [← hpruid]
    exact good3 pr hmem
  rcases Option.isSome_iff_exists.mp hid with ⟨user, huser⟩
  have humem : user ∈ st.users := by
    unfold findUserByID at huser
    exact List.mem_of_find?_eq_some huser
  have hact : user.isActive = true := good2 user humem
  refine ⟨user, huser, hact, ?_, ?_⟩
  · unfold refreshToken
    rw [if_neg ht, hlook]
    dsimp only
    rw [huser]
    dsimp only
    rw [hact]
    rfl
  · intro now2 fresh2
    unfold refreshToken
    rw [if_neg ht]
    have hnone : lookupRT (rotatedState st t fresh user.id).refreshTokens t = none := by
      show lookupRT (insertRT (deleteRT st.refreshTokens t) fresh user.id) t = none
      exact lookupRT_rotate user.id hfr
    rw [hnone]

/-- Witness for C1 at the state reached by one admin login that recorded the
refresh token rta: rotating rta once succeeds, rotating it again fails. -/
theorem claim1_witness :
    ∃ user : User, findUserByID cStLogin.users 1 = some user ∧
      user.isActive = true ∧
      refreshToken cStLogin ("rta") 60 ("rtb") =
        (Except.ok (mintedResponse user.id user.username user.role 60 ("rtb")),
          rotatedState cStLogin ("rta") ("rtb") user.id) ∧
      (∀ (now2 : Nat) (fresh2 : String),
        (refreshToken (rotatedState cStLogin ("rta") ("rtb") user.id)
            ("rta") now2 fresh2).1 =
          Except.error (401, "Invalid or expired refresh token")) :=
  claim1_refresh_single_use cStLogin ("rta") ("rtb") 1 60
    (ReachableFrom.step (ReachableFrom.refl initialState)
      (Op.opLogin ⟨"admin", "admin123"⟩ 0 ("rta")))
    (by rfl) (by decide) (by decide)

/-- C2: for every user with a clean counter and no lock, five consecutive
wrong-password logins leave the record with the counter reset to zero and
locked-until set to the fifth failure time plus lockoutDuration (30 min);
a sixth attempt inside the lockout window fails with the locked-account
error even with the correct password; and once lockoutDuration has elapsed
a correct-password login succeeds and leaves the counter reset and the lock
cleared. -/
theorem claim2_lockout_after_five_failures
    (st : ServerState) (uname goodPw badPw fb f6 f7 : String)
    (t1 t2 t3 t4 t5 t6 t7 : Nat) (u : User)
    (hn : uname ≠ "") (hg : 8 ≤ goodPw.length) (hb : 8 ≤ badPw.length)
    (hfind : findUserByUsername st.users uname = some u)
    (hfa : u.failedAttempts = 0) (hlu : u.lockedUntil = none)
    (hgood : verifyPassword goodPw u.passwordHash = true)
    (hbad : verifyPassword badPw u.passwordHash = false)
    (h6 : t6 < t5 + lockoutDuration) (h7 : t5 + lockoutDuration ≤ t7) :
    ∀ s5 : ServerState,
      s5 = (login (login (login (login (login st ⟨uname, badPw⟩ t1 fb).2
          ⟨uname, badPw⟩ t2 fb).2 ⟨uname, badPw⟩ t3 fb).2
          ⟨uname, badPw⟩ t4 fb).2 ⟨uname, badPw⟩ t5 fb).2 →
      (findUserByUsername s5.users uname = some (lockedUser u t5)) ∧
      ((login s5 ⟨uname, goodPw⟩ t6 f6).1 =
        Except.error (423, "Account is temporarily locked")) ∧
      ((login s5 ⟨uname, goodPw⟩ t7 f7).1 =
        Except.ok (mintedResponse u.id u.username u.role t7 f7)) ∧
      (findUserByUsername (login s5 ⟨uname, goodPw⟩ t7 f7).2.users uname =
        some (freshLoginUser u t7)) := by
  intro s5 hs5
  subst hs5
  have e1 : recordFailedAttempt u t1 = { u with failedAttempts := 1 } := by
    rw [recordFailedAttempt_of_lt t1 (by rw [hfa]; decide), hfa]
  have e2 : recordFailedAttempt { u with failedAttempts := 1 } t2 =
      { u with failedAttempts := 2 } := by
    rw [recordFailedAttempt_of_lt t2 (show (1 : Nat) + 1 < maxFailedAttempts by decide)]
  have e3 : recordFailedAttempt { u with failedAttempts := 2 } t3 =
      { u with failedAttempts := 3 } := by
    rw [recordFailedAttempt_of_lt t3 (show (2 : Nat) + 1 < maxFailedAttempts by decide)]
  have e4 : recordFailedAttempt { u with failedAttempts := 3 } t4 =
      { u with failedAttempts := 4 } := by
    rw [recordFailedAttempt_of_lt t4 (show (3 : Nat) + 1 < maxFailedAttempts by decide)]
  have e5 : recordFailedAttempt { u with failedAttempts := 4 } t5 =
      { u with failedAttempts := 0, lockedUntil := some (t5 + lockoutDuration) } := by
    rw [recordFailedAttempt_of_ge t5 (show maxFailedAttempts ≤ (4 : Nat) + 1 by decide)]
  have hS1 := login_fail_step st uname badPw t1 fb u hn hb hfind
    (isAccountLocked_none hlu t1) hbad
  have hf1 : findUserByUsername (loginFailUpdate st uname t1).users uname =
      some { u with failedAttempts := 1 } := by
    have hx := findUserByUsername_update uname (fun v => recordFailedAttempt v t1)
      (fun v => (recordFailedAttempt_fields v t1).1) hn hfind
    dsimp only at hx
    rw [e1] at hx
    exact hx
  have hS2 := login_fail_step (loginFailUpdate st uname t1) uname badPw t2 fb
    { u with failedAttempts := 1 } hn hb hf1
    (isAccountLocked_none
      (show ({ u with failedAttempts := 1 } : User).lockedUntil = none from hlu) t2)
    (show verifyPassword badPw ({ u with failedAttempts := 1 } : User).passwordHash =
      false from hbad)
  have hf2 : findUserByUsername
      (loginFailUpdate (loginFailUpdate st uname t1) uname t2).users uname =
      some { u with failedAttempts := 2 } := by
    have hx := findUserByUsername_update uname (fun v => recordFailedAttempt v t2)
      (fun v => (recordFailedAttempt_fields v t2).1) hn hf1
    dsimp only at hx
    rw [e2] at hx
    exact hx
  have hS3 := login_fail_step (loginFailUpdate (loginFailUpdate st uname t1) uname t2)
    uname badPw t3 fb { u with failedAttempts := 2 } hn hb hf2
    (isAccountLocked_none
      (show ({ u with failedAttempts := 2 } : User).lockedUntil = none from hlu) t3)
    (show verifyPassword badPw ({ u with failedAttempts := 2 } : User).passwordHash =
      false from hbad)
  have hf3 : findUserByUsername
      (loginFailUpdate (loginFailUpdate (loginFailUpdate st uname t1) uname t2)
        uname t3).users uname = some { u with failedAttempts := 3 } := by
    have hx := findUserByUsername_update uname (fun v => recordFailedAttempt v t3)
      (fun v => (recordFailedAttempt_fields v t3).1) hn hf2
    dsimp only at hx
    rw [e3] at hx
    exact hx
  have hS4 := login_fail_step
    (loginFailUpdate (loginFailUpdate (loginFailUpdate st uname t1) uname t2) uname t3)
    uname badPw t4 fb { u with failedAttempts := 3 } hn hb hf3
    (isAccountLocked_none
      (show ({ u with failedAttempts := 3 } : User).lockedUntil = none from hlu) t4)
    (show verifyPassword badPw ({ u with failedAttempts := 3 } : User).passwordHash =
      false from hbad)
  have hf4 : findUserByUsername
      (loginFailUpdate (loginFailUpdate (loginFailUpdate (loginFailUpdate st uname t1)
        uname t2) uname t3) uname t4).users uname =
      some { u with failedAttempts := 4 } := by
    have hx := findUserByUsername_update uname (fun v => recordFailedAttempt v t4)
      (fun v => (recordFailedAttempt_fields v t4).1) hn hf3
    dsimp only at hx
    rw [e4] at hx
    exact hx
  have hS5 := login_fail_step
    (loginFailUpdate (loginFailUpdate (loginFailUpdate (loginFailUpdate st uname t1)
      uname t2) uname t3) uname t4)
    uname badPw t5 fb { u with failedAttempts := 4 } hn hb hf4
    (isAccountLocked_none
      (show ({ u with failedAttempts := 4 } : User).lockedUntil = none from hlu) t5)
    (show verifyPassword badPw ({ u with failedAttempts := 4 } : User).passwordHash =
      false from hbad)
  have hf5 : findUserByUsername
      (loginFailUpdate (loginFailUpdate (loginFailUpdate (loginFailUpdate
        (loginFailUpdate st uname t1) uname t2) uname t3) uname t4) uname t5).users
      uname =
      some { u with failedAttempts := 0, lockedUntil := some (t5 + lockoutDuration) } := by
    have hx := findUserByUsername_update uname (fun v => recordFailedAttempt v t5)
      (fun v => (recordFailedAttempt_fields v t5).1) hn hf4
    dsimp only at hx
    rw [e5] at hx
    exact hx
  have r1 : (login st ⟨uname, badPw⟩ t1 fb).2 = loginFailUpdate st uname t1 := by
    rw [hS1]
  rw [r1]
  have r2 : (login (loginFailUpdate st uname t1) ⟨uname, badPw⟩ t2 fb).2 =
      loginFailUpdate (loginFailUpdate st uname t1) uname t2 := by
    rw [hS2]
  rw [r2]
  have r3 : (login (loginFailUpdate (loginFailUpdate st uname t1) uname t2)
      ⟨uname, badPw⟩ t3 fb).2 =
      loginFailUpdate (loginFailUpdate (loginFailUpdate st uname t1) uname t2)
        uname t3 := by
    rw [hS3]
  rw [r3]
  have r4 : (login (loginFailUpdate (loginFailUpdate (loginFailUpdate st uname t1)
      uname t2) uname t3) ⟨uname, badPw⟩ t4 fb).2 =
      loginFailUpdate (loginFailUpdate (loginFailUpdate (loginFailUpdate st uname t1)
        uname t2) uname t3) uname t4 := by
    rw [hS4]
  rw [r4]
  have r5 : (login (loginFailUpdate (loginFailUpdate (loginFailUpdate
      (loginFailUpdate st uname t1) uname t2) uname t3) uname t4)
      ⟨uname, badPw⟩ t5 fb).2 =
      loginFailUpdate (loginFailUpdate (loginFailUpdate (loginFailUpdate
        (loginFailUpdate st uname t1) uname t2) uname t3) uname t4) uname t5 := by
    rw [hS5]
  rw [r5]
  have hlock6 : isAccountLocked
      { u with failedAttempts := 0, lockedUntil := some (t5 + lockoutDuration) } t6 =
      true := by
    rw [isAccountLocked_some rfl t6]
    exact decide_eq_true h6
  have hlock7 : isAccountLocked
      { u with failedAttempts := 0, lockedUntil := some (t5 + lockoutDuration) } t7 =
      false := by
    rw [isAccountLocked_some rfl t7]
    exact decide_eq_false (by omega)
  have hS6 := login_locked_step
    (loginFailUpdate (loginFailUpdate (loginFailUpdate (loginFailUpdate
      (loginFailUpdate st uname t1) uname t2) uname t3) uname t4) uname t5)
    uname goodPw t6 f6
    { u with failedAttempts := 0, lockedUntil := some (t5 + lockoutDuration) }
    hn hg hf5 hlock6
  have hS7 := login_success_step
    (loginFailUpdate (loginFailUpdate (loginFailUpdate (loginFailUpdate
      (loginFailUpdate st uname t1) uname t2) uname t3) uname t4) uname t5)
    uname goodPw t7 f7
    { u with failedAttempts := 0, lockedUntil := some (t5 + lockoutDuration) }
    hn hg hf5 hlock7
    (show verifyPassword goodPw
      ({ u with failedAttempts := 0,
                lockedUntil := some (t5 + lockoutDuration) } : User).passwordHash =
        true from hgood)
  refine ⟨hf5, ?_, ?_, ?_⟩
  · rw [hS6]
  · rw [hS7]
    rfl
  · have hx := findUserByUsername_update uname
      (fun v => { resetFailedAttempts v with lastLogin := some t7 })
      (fun v => rfl) hn hf5
    dsimp only at hx
    rw [hS7]
    exact hx

/-- Witness for C2: the concrete five-failure lockout cycle for alice. -/
theorem claim2_witness :
    (findUserByUsername cLock5.users ("alice") = some (lockedUser cRegUser 5)) ∧
    ((login cLock5 ⟨"alice", "Passw0rd!"⟩ 10 ("y")).1 =
      Except.error (423, "Account is temporarily locked")) ∧
    ((login cLock5 ⟨"alice", "Passw0rd!"⟩ 1805 ("z")).1 =
      Except.ok (mintedResponse cRegUser.id cRegUser.username cRegUser.role
        1805 ("z"))) ∧
    (findUserByUsername (login cLock5 ⟨"alice", "Passw0rd!"⟩ 1805 ("z")).2.users
      ("alice") = some (freshLoginUser cRegUser 1805)) :=
  claim2_lockout_after_five_failures cRegState ("alice") ("Passw0rd!")
    ("WrongPass1!") ("x") ("y") ("z") 1 2 3 4 5 10 1805 cRegUser
    (by decide) (by decide) (by decide) (by rfl) rfl rfl (by rfl) (by rfl)
    (by decide) (by decide) cLock5 (by rfl)

end GoAuth
